import Mathlib

/-!
Verification of the `PlaneLayer` composition model of the ACTS tracking
geometry (`Core/include/ACTS/Layers/PlaneLayer.hpp`).

A `PlaneLayer` is simultaneously a plane-shaped geometric surface and a
tracking layer.  The header under `src/` gives the two `create` factories,
the `cloneWithShift` entry point (whose body is `return
PlaneLayer::create(*this, shift)`), the deleted default/copy constructors
and assignment, and the declarations of `surfaceRepresentation` and
`buildApproachDescriptor`.  The bodies of the private constructors, of
`buildApproachDescriptor` and of `surfaceRepresentation` live in
`Core/src/Layers/PlaneLayer.cpp`, which is not part of the given sources;
those are modelled from the specification and carry a
`Modelled from the spec:` doc comment.

Machine doubles are embedded as rationals; shared-pointer identity of the
immutable `PlanarBounds` object is embedded as a pointer id (`Nat`), so
that equality of the field is exactly identity of the shared object.
-/

namespace Acts

/-- A 3-vector of rationals, embedding Eigen `Vector3D` values. -/
structure Vec3 where
  x : ℚ
  y : ℚ
  z : ℚ
deriving DecidableEq, Repr

/-- Componentwise sum of two 3-vectors. -/
def Vec3.add (a b : Vec3) : Vec3 :=
  ⟨a.x + b.x, a.y + b.y, a.z + b.z⟩

/-- Scalar multiple of a 3-vector. -/
def Vec3.smul (c : ℚ) (a : Vec3) : Vec3 :=
  ⟨c * a.x, c * a.y, c * a.z⟩

/-- Dot product of two 3-vectors. -/
def Vec3.dot (a b : Vec3) : ℚ :=
  a.x * b.x + a.y * b.y + a.z * b.z

/-- A 3x3 matrix of rationals, stored by rows. -/
structure Mat3 where
  r0 : Vec3
  r1 : Vec3
  r2 : Vec3
deriving DecidableEq, Repr

/-- Matrix-vector application. -/
def Mat3.mulVec (m : Mat3) (v : Vec3) : Vec3 :=
  ⟨m.r0.dot v, m.r1.dot v, m.r2.dot v⟩

/-- Column `j` of a matrix, as a vector. -/
def Mat3.col (m : Mat3) (j : Fin 3) : Vec3 :=
  match j with
  | 0 => ⟨m.r0.x, m.r1.x, m.r2.x⟩
  | 1 => ⟨m.r0.y, m.r1.y, m.r2.y⟩
  | 2 => ⟨m.r0.z, m.r1.z, m.r2.z⟩

/-- Matrix product (row `i` of the product dots row `i` of `a` with the
columns of `b`). -/
def Mat3.mul (a b : Mat3) : Mat3 :=
  ⟨⟨a.r0.dot (b.col 0), a.r0.dot (b.col 1), a.r0.dot (b.col 2)⟩,
   ⟨a.r1.dot (b.col 0), a.r1.dot (b.col 1), a.r1.dot (b.col 2)⟩,
   ⟨a.r2.dot (b.col 0), a.r2.dot (b.col 1), a.r2.dot (b.col 2)⟩⟩

/-- The identity 3x3 matrix. -/
def Mat3.id : Mat3 :=
  ⟨⟨1, 0, 0⟩, ⟨0, 1, 0⟩, ⟨0, 0, 1⟩⟩

/-- An affine rigid placement (Eigen `Transform3D`): a linear part and a
translation, acting as `p ↦ linear * p + translation`. -/
structure Transform3D where
  linear : Mat3
  translation : Vec3
deriving DecidableEq, Repr

/-- Composition of placements: `(a.comp b)` first applies `b`, then `a`
(the Eigen product `a * b`). -/
def Transform3D.comp (a b : Transform3D) : Transform3D :=
  ⟨a.linear.mul b.linear, (a.linear.mulVec b.translation).add a.translation⟩

/-- The identity placement. -/
def Transform3D.id : Transform3D :=
  ⟨Mat3.id, ⟨0, 0, 0⟩⟩

/-- The layer classification enumeration `{active, passive, navigation}`. -/
inductive LayerType where
  | active
  | passive
  | navigation
deriving DecidableEq, Repr

/-- The opaque sensitive-surface container (`SurfaceArray`), embedded as an
ordered list of sensitive-surface ids. -/
abbrev SurfaceArray : Type := List Nat

/-- A plane surface datum: a placement plus a shared handle (pointer id,
`none` for a null `shared_ptr`) to an immutable `PlanarBounds` object. -/
structure PlaneSurfaceRep where
  transform : Transform3D
  bounds : Option Nat
deriving DecidableEq, Repr

/-- The normal of a plane surface: the image of the local z-axis under the
linear part of the placement. -/
def planeNormal (t : Transform3D) : Vec3 :=
  t.linear.mulVec ⟨0, 0, 1⟩

/-- The placement obtained by translating `t` a (signed) distance `d` along
direction `n` in the global frame; the linear part is unchanged. -/
def offsetAlong (t : Transform3D) (d : ℚ) (n : Vec3) : Transform3D :=
  ⟨t.linear, t.translation.add (Vec3.smul d n)⟩

/-- An approach descriptor: the candidate set of bounding surfaces that
navigation queries, in registration order. -/
structure ApproachDescriptor where
  surfaces : List PlaneSurfaceRep
deriving DecidableEq, Repr

/-- The aggregate `PlaneLayer`: one entity that is both a plane surface
(`transform`, `bounds`) and a layer (`surfaceArray`, `thickness`,
`approachDescriptor`, `layerType`).  `bounds` is the shared pointer id of
the immutable bounds object, non-null after construction. -/
structure PlaneLayer where
  transform : Transform3D
  bounds : Option Nat
  surfaceArray : Option SurfaceArray
  thickness : ℚ
  approachDescriptor : ApproachDescriptor
  layerType : LayerType
deriving DecidableEq, Repr

/-- Modelled from the spec: the body of `PlaneLayer::buildApproachDescriptor`
(`Core/src/Layers/PlaneLayer.cpp` is not among the given sources).  Per
section 4.3 it derives exactly two bounding approach surfaces from the
layer's own bounds, offset along the surface normal by `-thickness/2` and
`+thickness/2`, and registers these two surfaces plus the layer's own
surface as the candidate set of a freshly constructed descriptor. -/
def buildApproachDescriptorOn (t : Transform3D) (b : Option Nat) (thickness : ℚ) :
    ApproachDescriptor :=
  let n := planeNormal t
  let sMinus : PlaneSurfaceRep := ⟨offsetAlong t (-(thickness / 2)) n, b⟩
  let sPlus : PlaneSurfaceRep := ⟨offsetAlong t (thickness / 2) n, b⟩
  ⟨[sMinus, sPlus, ⟨t, b⟩]⟩

/-- Modelled from the spec: the body of the private `PlaneLayer` constructor
called by the first `create` factory (the constructor is only declared in
the header; its body in `Core/src/Layers/PlaneLayer.cpp` is not among the
given sources).  Per sections 4.3 and 7, the preconditions — non-null
bounds and thickness ≥ 0 — fail fast (modelled as `none`) instead of
producing a partially valid object; a supplied approach descriptor is
taken as-is, and when none is supplied one is derived before creation
returns. -/
def PlaneLayer.ctor (transform : Transform3D) (pbounds : Option Nat)
    (surfaceArray : Option SurfaceArray) (thickness : ℚ)
    (ad : Option ApproachDescriptor) (laytyp : LayerType) : Option PlaneLayer :=
  match pbounds with
  | none => none
  | some b =>
    if thickness < 0 then
      none
    else
      some
        { transform := transform
          bounds := some b
          surfaceArray := surfaceArray
          thickness := thickness
          approachDescriptor :=
            ad.getD (buildApproachDescriptorOn transform (some b) thickness)
          layerType := laytyp }

/-- The first `create` factory of the header: it constructs a new
`PlaneLayer` via the private constructor and hands it out. -/
def PlaneLayer.create (transform : Transform3D) (pbounds : Option Nat)
    (surfaceArray : Option SurfaceArray) (thickness : ℚ)
    (ad : Option ApproachDescriptor) (laytyp : LayerType) : Option PlaneLayer :=
  PlaneLayer.ctor transform pbounds surfaceArray thickness ad laytyp

/-- Modelled from the spec: the body of the private shift-copy constructor
`PlaneLayer(const PlaneLayer&, const Transform3D&)` (declared in the
header, defined in `Core/src/Layers/PlaneLayer.cpp`, which is not among
the given sources).  Per section 4.3, the new transform is the source
transform composed with the shift (shift applied after the existing
placement), the bounds handle is shared, thickness and layer type are
copied by value, the sensitive-surface array is not retained, and a new
approach descriptor is rederived for the shifted geometry. -/
def PlaneLayer.ctorShift (pla : PlaneLayer) (shift : Transform3D) : PlaneLayer :=
  { transform := shift.comp pla.transform
    bounds := pla.bounds
    surfaceArray := none
    thickness := pla.thickness
    approachDescriptor :=
      buildApproachDescriptorOn (shift.comp pla.transform) pla.bounds pla.thickness
    layerType := pla.layerType }

/-- The second `create` factory of the header (shift-clone): it constructs
a new `PlaneLayer` via the private shift-copy constructor. -/
def PlaneLayer.createShift (pla : PlaneLayer) (shift : Transform3D) : PlaneLayer :=
  PlaneLayer.ctorShift pla shift

/-- `cloneWithShift`, from the header: its body is exactly
`return PlaneLayer::create(*this, shift);`. -/
def PlaneLayer.cloneWithShift (pla : PlaneLayer) (shift : Transform3D) : PlaneLayer :=
  PlaneLayer.createShift pla shift

/-- Modelled from the spec: the body of the const overload of
`surfaceRepresentation` (declared in the header, defined out of the given
sources).  It returns the layer itself viewed as its geometric surface —
identity, not a copy. -/
def PlaneLayer.surfaceRepresentation (pla : PlaneLayer) : PlaneLayer :=
  pla

/-- Modelled from the spec: the body of the non-const overload of
`surfaceRepresentation`; likewise it returns the layer itself. -/
def PlaneLayer.surfaceRepresentationMut (pla : PlaneLayer) : PlaneLayer :=
  pla

/-- A definition following the specification's words for the shift-clone
(section 4.3, `create(existingLayer, shift)`): transform composed with the
shift applied after the existing placement, bounds shared, thickness and
layer type copied by value, the sensitive-surface array not retained, and
the approach descriptor rederived for the shifted geometry.  It is kept
separate from the source-derived `cloneWithShift` so the two can be
compared. -/
def cloneWithShiftSpec (pla : PlaneLayer) (shift : Transform3D) : PlaneLayer :=
  { transform := shift.comp pla.transform
    bounds := pla.bounds
    surfaceArray := none
    thickness := pla.thickness
    approachDescriptor :=
      buildApproachDescriptorOn (shift.comp pla.transform) pla.bounds pla.thickness
    layerType := pla.layerType }

/-!
Object store model.  `PlaneLayer` objects are heap-allocated by the two
factories and never mutated; a `LayerStore` is the list of instances
allocated so far, an instance being addressed by its index.  The public
API of the header gives exactly two allocating operations: the argument
factory `create(...)` and the shift-clone (reached through
`cloneWithShift`); default construction, copy construction and assignment
are deleted in the header, so no other operation exists.
-/

/-- The allocating operations the public type offers: the argument factory
and the shift-clone of an existing instance. -/
inductive LayerOp where
  | create (transform : Transform3D) (pbounds : Option Nat)
      (surfaceArray : Option SurfaceArray) (thickness : ℚ)
      (ad : Option ApproachDescriptor) (laytyp : LayerType)
  | cloneShift (src : Nat) (shift : Transform3D)
deriving DecidableEq

/-- The store of allocated `PlaneLayer` instances; an instance is addressed
by its list index. -/
structure LayerStore where
  layers : List PlaneLayer
deriving DecidableEq

/-- One step of the store: a successful `create` appends the new instance;
a `cloneShift` of a live instance appends its shift-clone.  A failed
precondition check or a dangling source reference allocates nothing. -/
def LayerStore.step (s : LayerStore) (op : LayerOp) : LayerStore :=
  match op with
  | .create t b sa th ad lt =>
    match PlaneLayer.create t b sa th ad lt with
    | some l => ⟨s.layers ++ [l]⟩
    | none => s
  | .cloneShift r shift =>
    match s.layers[r]? with
    | some src => ⟨s.layers ++ [src.cloneWithShift shift]⟩
    | none => s

/-- Running a sequence of operations from the empty store. -/
def LayerStore.run (ops : List LayerOp) : LayerStore :=
  ops.foldl LayerStore.step ⟨[]⟩

/-!
Handle model.  The header types its results: both factories return
`MutableLayerPtr` while `cloneWithShift` returns `LayerPtr`.  The typedefs
(`LayerPtr = shared_ptr<const Layer>`, `MutableLayerPtr =
shared_ptr<Layer>`, in `Layer.hpp`, not among the given sources) are
modelled from their names and the spec's read-only discipline: a handle
carries the object together with whether non-const access through it is
permitted.
-/

/-- A shared-pointer handle to a layer: the object plus the const
qualification of the pointee (`allowsMutation = true` for
`MutableLayerPtr`, `false` for `LayerPtr`). -/
structure LayerHandle where
  layer : PlaneLayer
  allowsMutation : Bool
deriving DecidableEq

/-- Non-const access through a handle: permitted only when the handle is a
mutable one; through a pointer-to-const handle it is rejected. -/
def LayerHandle.mutAccess (h : LayerHandle) : Option PlaneLayer :=
  if h.allowsMutation then some h.layer else none

/-- The first `create` factory, at handle level: returns a
`MutableLayerPtr`. -/
def PlaneLayer.createPtr (transform : Transform3D) (pbounds : Option Nat)
    (surfaceArray : Option SurfaceArray) (thickness : ℚ)
    (ad : Option ApproachDescriptor) (laytyp : LayerType) : Option LayerHandle :=
  (PlaneLayer.create transform pbounds surfaceArray thickness ad laytyp).map
    (fun l => ⟨l, true⟩)

/-- The shift-clone factory, at handle level: returns a
`MutableLayerPtr`. -/
def PlaneLayer.createShiftPtr (pla : PlaneLayer) (shift : Transform3D) : LayerHandle :=
  ⟨PlaneLayer.createShift pla shift, true⟩

/-- `cloneWithShift`, at handle level: the header declares its result as
`LayerPtr`, so the `MutableLayerPtr` produced by the factory call in its
body is handed out as a pointer-to-const. -/
def PlaneLayer.cloneWithShiftPtr (pla : PlaneLayer) (shift : Transform3D) : LayerHandle :=
  ⟨(PlaneLayer.createShiftPtr pla shift).layer, false⟩

/-- Provenance of an instance: it is the result of the argument factory or
of a shift-clone of some instance.  No other allocating operation exists in
the public type. -/
def LayerProvenance (l : PlaneLayer) : Prop :=
  (∃ t b sa th ad lt, PlaneLayer.create t b sa th ad lt = some l) ∨
  (∃ src S, l = PlaneLayer.cloneWithShift src S)

/-- A concrete sample layer (identity placement, bounds object 0, no
surface array, thickness 2, derived descriptor, active), used by the
closed witness statements. -/
def sampleLayer : PlaneLayer :=
  { transform := Transform3D.id
    bounds := some 0
    surfaceArray := none
    thickness := 2
    approachDescriptor := buildApproachDescriptorOn Transform3D.id (some 0) 2
    layerType := LayerType.active }

/-- A concrete sample shift: translation by (0, 0, 5). -/
def sampleShift : Transform3D :=
  ⟨Mat3.id, ⟨0, 0, 5⟩⟩

/-- Translating a placement a zero distance along any direction leaves it
unchanged. -/
theorem offsetAlong_zero (t : Transform3D) (n : Vec3) : offsetAlong t 0 n = t := by
  simp [offsetAlong, Vec3.smul, Vec3.add]

/-!  Theorems settling the claims. -/

/-- Claim C1: for every valid input (transform, non-null bounds,
thickness ≥ 0, optional surface array, optional approach descriptor,
layer type), the factory `create` returns a layer — non-null — whose
surface representation carries the supplied bounds handle and whose
thickness accessor returns the supplied thickness. -/
theorem create_valid_bounds_thickness (t : Transform3D) (b : Nat)
    (sa : Option SurfaceArray) (th : ℚ) (ad : Option ApproachDescriptor)
    (lt : LayerType) (h : 0 ≤ th) :
    ∃ l, PlaneLayer.create t (some b) sa th ad lt = some l ∧
      (PlaneLayer.surfaceRepresentation l).bounds = some b ∧
      l.thickness = th := by
  simp only [PlaneLayer.create, PlaneLayer.ctor, if_neg (not_lt.mpr h)]
  exact ⟨_, rfl, rfl, rfl⟩

/-- Witness for C1: the identity placement, bounds object 0, thickness 2. -/
theorem create_valid_bounds_thickness_witness :
    ∃ l, PlaneLayer.create Transform3D.id (some 0) none 2 none LayerType.active = some l ∧
      (PlaneLayer.surfaceRepresentation l).bounds = some 0 ∧
      l.thickness = 2 :=
  create_valid_bounds_thickness Transform3D.id 0 none 2 none LayerType.active (by norm_num)

/-- Claim C2: the shift-clone's transform is the source transform composed
with the shift (shift applied after the existing placement); its bounds
handle is the identical shared handle, not a copy; its thickness and layer
type equal the source's. -/
theorem cloneWithShift_fields (L : PlaneLayer) (S : Transform3D) :
    (PlaneLayer.cloneWithShift L S).transform = Transform3D.comp S L.transform ∧
    (PlaneLayer.cloneWithShift L S).bounds = L.bounds ∧
    (PlaneLayer.cloneWithShift L S).thickness = L.thickness ∧
    (PlaneLayer.cloneWithShift L S).layerType = L.layerType :=
  ⟨rfl, rfl, rfl, rfl⟩

/-- Claim C3: the shift-clone does not retain the source's
sensitive-surface array — its sensitive-surface query is empty whatever
the source held — and it carries a freshly derived approach descriptor for
the shifted geometry; neither the source's array nor the source's
descriptor influences the clone at all. -/
theorem cloneWithShift_drops_array_rederives_descriptor (L : PlaneLayer)
    (S : Transform3D) (sa : Option SurfaceArray) (d : ApproachDescriptor) :
    (PlaneLayer.cloneWithShift L S).surfaceArray = none ∧
    (PlaneLayer.cloneWithShift L S).approachDescriptor =
      buildApproachDescriptorOn (Transform3D.comp S L.transform) L.bounds L.thickness ∧
    PlaneLayer.cloneWithShift
        { L with surfaceArray := sa, approachDescriptor := d } S =
      PlaneLayer.cloneWithShift L S :=
  ⟨rfl, rfl, rfl⟩

/-- Claim C5: `cloneWithShift` produces exactly the result of the
shift-clone factory `create(*this, shift)` — its body is that call — and
both agree with the specification's description of the shift-clone. -/
theorem cloneWithShift_refines_create (L : PlaneLayer) (S : Transform3D) :
    PlaneLayer.cloneWithShift L S = PlaneLayer.createShift L S ∧
    PlaneLayer.cloneWithShift L S = cloneWithShiftSpec L S :=
  ⟨rfl, rfl⟩

/-- Claim C6: calling `create` with a null bounds handle or with negative
thickness fails fast — no partially valid layer is returned. -/
theorem create_precondition_fails_fast (t : Transform3D) (b : Option Nat)
    (sa : Option SurfaceArray) (th : ℚ) (ad : Option ApproachDescriptor)
    (lt : LayerType) (h : b = none ∨ th < 0) :
    PlaneLayer.create t b sa th ad lt = none := by
  cases b with
  | none => rfl
  | some b' =>
    rcases h with h | h
    · exact absurd h (Option.some_ne_none b')
    · simp only [PlaneLayer.create, PlaneLayer.ctor, if_pos h]

/-- Witness for C6: negative thickness is rejected. -/
theorem create_precondition_fails_fast_witness :
    PlaneLayer.create Transform3D.id (some 0) none (-1) none LayerType.active = none :=
  create_precondition_fails_fast Transform3D.id (some 0) none (-1) none
    LayerType.active (Or.inr (by norm_num))

/-- Claim C8: both overloads of `surfaceRepresentation` return the layer
itself viewed as its geometric surface — the identical object, not a
copy. -/
theorem surfaceRepresentation_is_identity (L : PlaneLayer) :
    PlaneLayer.surfaceRepresentation L = L ∧
    PlaneLayer.surfaceRepresentationMut L = L :=
  ⟨rfl, rfl⟩

/-- Claim C10: `cloneWithShift` hands its result out as a pointer-to-const
handle — non-const access through it is rejected — while both factories
return mutable handles; the object behind the clone's handle is exactly
the shift-clone. -/
theorem cloneWithShift_const_handle (L : PlaneLayer) (S : Transform3D)
    (t : Transform3D) (b : Option Nat) (sa : Option SurfaceArray) (th : ℚ)
    (ad : Option ApproachDescriptor) (lt : LayerType) (h : LayerHandle)
    (hc : PlaneLayer.createPtr t b sa th ad lt = some h) :
    (PlaneLayer.cloneWithShiftPtr L S).allowsMutation = false ∧
    LayerHandle.mutAccess (PlaneLayer.cloneWithShiftPtr L S) = none ∧
    (PlaneLayer.cloneWithShiftPtr L S).layer = PlaneLayer.cloneWithShift L S ∧
    (PlaneLayer.createShiftPtr L S).allowsMutation = true ∧
    h.allowsMutation = true := by
  refine ⟨rfl, rfl, rfl, rfl, ?_⟩
  unfold PlaneLayer.createPtr at hc
  cases hcr : PlaneLayer.create t b sa th ad lt with
  | none => rw [hcr] at hc; cases hc
  | some l => rw [hcr] at hc; cases hc; rfl

/-- Claim C4: when no approach descriptor is supplied at construction, the
layer's descriptor holds exactly three candidates — two surfaces derived
from the layer's own bounds, their placements offset from the layer's
along the surface normal by `-thickness/2` and `+thickness/2` with the
orientation unchanged, plus the layer's own surface — and at thickness 0
the two derived surfaces coincide with the layer's own plane. -/
theorem buildApproachDescriptor_three_candidates (t : Transform3D) (b : Option Nat)
    (sa : Option SurfaceArray) (th : ℚ) (lt : LayerType) (l : PlaneLayer)
    (h : PlaneLayer.create t b sa th none lt = some l) :
    l.approachDescriptor.surfaces.length = 3 ∧
    ∃ sMinus sPlus,
      l.approachDescriptor.surfaces =
        [sMinus, sPlus, ⟨l.transform, l.bounds⟩] ∧
      sMinus.bounds = l.bounds ∧
      sPlus.bounds = l.bounds ∧
      sMinus.transform.linear = l.transform.linear ∧
      sPlus.transform.linear = l.transform.linear ∧
      sMinus.transform.translation =
        Vec3.add l.transform.translation
          (Vec3.smul (-(th / 2)) (planeNormal l.transform)) ∧
      sPlus.transform.translation =
        Vec3.add l.transform.translation
          (Vec3.smul (th / 2) (planeNormal l.transform)) ∧
      (th = 0 →
        sMinus = ⟨l.transform, l.bounds⟩ ∧
        sPlus = ⟨l.transform, l.bounds⟩) := by
  cases b with
  | none => cases h
  | some b' =>
    by_cases hth : th < 0
    · simp only [PlaneLayer.create, PlaneLayer.ctor, if_pos hth] at h
      cases h
    · simp only [PlaneLayer.create, PlaneLayer.ctor, if_neg hth,
        Option.getD_none, Option.some.injEq] at h
      subst h
      refine ⟨rfl, _, _, rfl, rfl, rfl, rfl, rfl, rfl, rfl, ?_⟩
      intro h0
      subst h0
      constructor <;> norm_num [offsetAlong_zero]

/-- Witness for C4 at the sample layer (identity placement, thickness 2). -/
theorem buildApproachDescriptor_three_candidates_witness :
    sampleLayer.approachDescriptor.surfaces.length = 3 ∧
    ∃ sMinus sPlus,
      sampleLayer.approachDescriptor.surfaces =
        [sMinus, sPlus, ⟨sampleLayer.transform, sampleLayer.bounds⟩] ∧
      sMinus.bounds = sampleLayer.bounds ∧
      sPlus.bounds = sampleLayer.bounds ∧
      sMinus.transform.linear = sampleLayer.transform.linear ∧
      sPlus.transform.linear = sampleLayer.transform.linear ∧
      sMinus.transform.translation =
        Vec3.add sampleLayer.transform.translation
          (Vec3.smul (-((2 : ℚ) / 2)) (planeNormal sampleLayer.transform)) ∧
      sPlus.transform.translation =
        Vec3.add sampleLayer.transform.translation
          (Vec3.smul ((2 : ℚ) / 2) (planeNormal sampleLayer.transform)) ∧
      ((2 : ℚ) = 0 →
        sMinus = ⟨sampleLayer.transform, sampleLayer.bounds⟩ ∧
        sPlus = ⟨sampleLayer.transform, sampleLayer.bounds⟩) :=
  buildApproachDescriptor_three_candidates Transform3D.id (some 0) none 2
    LayerType.active sampleLayer
    (by norm_num [PlaneLayer.create, PlaneLayer.ctor, sampleLayer])

/-- Claim C7: no operation of the store model changes an instance that
already exists — in particular every field of a shift-clone's source is
unchanged — and the shift-clone only reads the source and allocates its
result as a new instance at a fresh address, disjoint from the source. -/
theorem step_never_mutates_existing (s : LayerStore) (op : LayerOp) (i r : Nat)
    (S : Transform3D) (src : PlaneLayer)
    (hi : i < s.layers.length) (hsrc : s.layers[r]? = some src) :
    (LayerStore.step s op).layers[i]? = s.layers[i]? ∧
    (LayerStore.step s (LayerOp.cloneShift r S)).layers[i]? = s.layers[i]? ∧
    (LayerStore.step s (LayerOp.cloneShift r S)).layers[s.layers.length]? =
      some (PlaneLayer.cloneWithShift src S) ∧
    r ≠ s.layers.length := by
  have hr : r < s.layers.length := by
    rcases List.getElem?_eq_some_iff.mp hsrc with ⟨hr, _⟩
    exact hr
  have hclone :
      LayerStore.step s (LayerOp.cloneShift r S) =
        ⟨s.layers ++ [PlaneLayer.cloneWithShift src S]⟩ := by
    simp only [LayerStore.step, hsrc]
  refine ⟨?_, ?_, ?_, Nat.ne_of_lt hr⟩
  · cases op with
    | create t b sa th ad lt =>
      simp only [LayerStore.step]
      cases PlaneLayer.create t b sa th ad lt with
      | none => rfl
      | some l => exact List.getElem?_append_left hi
    | cloneShift r' S' =>
      simp only [LayerStore.step]
      cases s.layers[r']? with
      | none => rfl
      | some src' => exact List.getElem?_append_left hi
  · rw [hclone]
    exact List.getElem?_append_left hi
  · rw [hclone]
    exact List.getElem?_concat_length s.layers (PlaneLayer.cloneWithShift src S)

/-- Witness for C7: a one-element store holding the sample layer, stepped
by a factory call and by a shift-clone of instance 0. -/
theorem step_never_mutates_existing_witness :
    (LayerStore.step ⟨[sampleLayer]⟩
        (LayerOp.create Transform3D.id (some 0) none 2 none LayerType.active)).layers[0]? =
      (⟨[sampleLayer]⟩ : LayerStore).layers[0]? ∧
    (LayerStore.step ⟨[sampleLayer]⟩
        (LayerOp.cloneShift 0 sampleShift)).layers[0]? =
      (⟨[sampleLayer]⟩ : LayerStore).layers[0]? ∧
    (LayerStore.step ⟨[sampleLayer]⟩
        (LayerOp.cloneShift 0 sampleShift)).layers[(⟨[sampleLayer]⟩ :
          LayerStore).layers.length]? =
      some (PlaneLayer.cloneWithShift sampleLayer sampleShift) ∧
    (0 : Nat) ≠ (⟨[sampleLayer]⟩ : LayerStore).layers.length :=
  step_never_mutates_existing ⟨[sampleLayer]⟩
    (LayerOp.create Transform3D.id (some 0) none 2 none LayerType.active)
    0 0 sampleShift sampleLayer (by decide) rfl

/-- Every instance a step adds satisfies `LayerProvenance`; existing
instances are carried over. -/
theorem mem_step_cases (s : LayerStore) (op : LayerOp) (l : PlaneLayer)
    (h : l ∈ (LayerStore.step s op).layers) :
    l ∈ s.layers ∨ LayerProvenance l := by
  cases op with
  | create t b sa th ad lt =>
    simp only [LayerStore.step] at h
    cases hc : PlaneLayer.create t b sa th ad lt with
    | none => rw [hc] at h; exact Or.inl h
    | some l' =>
      rw [hc] at h
      rcases List.mem_append.mp h with h | h
      · exact Or.inl h
      · refine Or.inr (Or.inl ⟨t, b, sa, th, ad, lt, ?_⟩)
        rw [hc, List.mem_singleton.mp h]
  | cloneShift r S =>
    simp only [LayerStore.step] at h
    cases hc : s.layers[r]? with
    | none => rw [hc] at h; exact Or.inl h
    | some src =>
      rw [hc] at h
      rcases List.mem_append.mp h with h | h
      · exact Or.inl h
      · exact Or.inr (Or.inr ⟨src, S, List.mem_singleton.mp h⟩)

/-- Provenance is an invariant of running any operation sequence. -/
theorem foldl_step_provenance (ops : List LayerOp) (s : LayerStore)
    (hs : ∀ l ∈ s.layers, LayerProvenance l) :
    ∀ l ∈ (ops.foldl LayerStore.step s).layers, LayerProvenance l := by
  induction ops generalizing s with
  | nil => exact hs
  | cons op rest ih =>
    intro l hl
    refine ih (LayerStore.step s op) (fun l' hl' => ?_) l hl
    exact (mem_step_cases s op l' hl').elim (hs l') id

/-- Claim C9: every instance reachable by running the public operations
from the empty store is the result of the argument factory or of a
shift-clone; the model offers no default construction and no copy
construction, mirroring the deleted operations of the header. -/
theorem planeLayer_only_from_factories (ops : List LayerOp) (l : PlaneLayer)
    (h : l ∈ (LayerStore.run ops).layers) :
    (∃ t b sa th ad lt, PlaneLayer.create t b sa th ad lt = some l) ∨
    (∃ src S, l = PlaneLayer.cloneWithShift src S) :=
  foldl_step_provenance ops ⟨[]⟩ (fun _ hl => absurd hl (List.not_mem_nil _)) l h

/-- Witness for C9: the sample layer, reached by one factory call. -/
theorem planeLayer_only_from_factories_witness :
    (∃ t b sa th ad lt, PlaneLayer.create t b sa th ad lt = some sampleLayer) ∨
    (∃ src S, sampleLayer = PlaneLayer.cloneWithShift src S) :=
  planeLayer_only_from_factories
    [LayerOp.create Transform3D.id (some 0) none 2 none LayerType.active]
    sampleLayer
    (by
      have hc :
          PlaneLayer.create Transform3D.id (some 0) none 2 none LayerType.active =
            some sampleLayer := by
        norm_num [PlaneLayer.create, PlaneLayer.ctor, sampleLayer]
      simp [LayerStore.run, LayerStore.step, hc])

/-- Witness for C10 at the sample layer and shift. -/
theorem cloneWithShift_const_handle_witness :
    (PlaneLayer.cloneWithShiftPtr sampleLayer sampleShift).allowsMutation = false ∧
    LayerHandle.mutAccess (PlaneLayer.cloneWithShiftPtr sampleLayer sampleShift) = none ∧
    (PlaneLayer.cloneWithShiftPtr sampleLayer sampleShift).layer =
      PlaneLayer.cloneWithShift sampleLayer sampleShift ∧
    (PlaneLayer.createShiftPtr sampleLayer sampleShift).allowsMutation = true ∧
    (⟨sampleLayer, true⟩ : LayerHandle).allowsMutation = true :=
  cloneWithShift_const_handle sampleLayer sampleShift Transform3D.id (some 0) none 2
    none LayerType.active ⟨sampleLayer, true⟩ rfl

end Acts
